import Mathlib

/-!
Shallow embedding of the volume-effect parameter conformance checker from
`audio/aidl/vts/VtsHalVolumeTargetTest.cpp`.

The checker logic lives in the `VolumeParamTest` fixture: the pure range
predicates `isLevelInRange` / `isTagInRange`, the boundary test vector
`kLevelValues`, and the stateful evaluation loop `SetAndGetParameters`,
which talks to a plugin (an `IEffect` instance) through three calls:
`getDescriptor`, `setParameter` and `getParameter`.

The protocol constants `Volume::MIN_LEVEL_DB` and `Volume::MAX_LEVEL_DB`
are declared in the Volume AIDL file of this repository, which is not part
of the extracted sources; every definition is therefore parameterised by
the two integers `MIN_LEVEL_DB` and `MAX_LEVEL_DB`, and theorems hold for
all values of these constants.

C++ `int` levels are modelled as `Int`: the only arithmetic performed on
them in the checker is `MIN_LEVEL_DB - 1` and `MAX_LEVEL_DB + 1` in the
test vector, which does not overflow for the actual constants.
-/

/-- Binder transaction status (`binder_exception_t`). The checker
distinguishes success (`EX_NONE`), the rejection signal
(`EX_ILLEGAL_ARGUMENT`), and everything else; other concrete binder codes
are carried as an integer payload. -/
inductive BinderStatus where
  | EX_NONE : BinderStatus
  | EX_ILLEGAL_ARGUMENT : BinderStatus
  | otherError (code : Int) : BinderStatus
deriving DecidableEq, Repr

/-- Tag discriminating the variants of the `Volume` AIDL union
(`Volume::levelDb`, `Volume::mute`). -/
inductive VolumeTag where
  | levelDb : VolumeTag
  | mute : VolumeTag
deriving DecidableEq, Repr

/-- The `Volume` AIDL union: a level in dB (`levelDb`, a C++ `int`) or a
mute flag (`mute`, a boolean). -/
inductive Volume where
  | levelDb (level : Int) : Volume
  | mute (m : Bool) : Volume
deriving DecidableEq, Repr

/-- Tag carried by a `Volume` value (the union discriminator). -/
def Volume.tagOf : Volume → VolumeTag
  | .levelDb _ => .levelDb
  | .mute _ => .mute

/-- The `Volume::Capability` record reported by the plugin; the checker
reads only its `maxLevel` field. -/
structure VolumeCapability where
  maxLevel : Int
deriving DecidableEq, Repr

/-- The slice of the effect `Descriptor` the checker uses: the test reads
`desc.capability.get<Capability::volume>()`, i.e. the volume capability
embedded in the descriptor. -/
structure Descriptor where
  capability : VolumeCapability
deriving DecidableEq, Repr

/-- Embeds `VolumeParamTest::isLevelInRange`:
`level >= Volume::MIN_LEVEL_DB && level <= Volume::MAX_LEVEL_DB &&
level <= cap.maxLevel`. -/
def isLevelInRange (MIN_LEVEL_DB MAX_LEVEL_DB : Int) (cap : VolumeCapability)
    (level : Int) : Bool :=
  decide (MIN_LEVEL_DB ≤ level) && decide (level ≤ MAX_LEVEL_DB) &&
    decide (level ≤ cap.maxLevel)

/-- Embeds `VolumeParamTest::isTagInRange`: switch on the tag; for
`levelDb` read the level out of the union and defer to `isLevelInRange`;
for `mute` return true. The C++ `default:` arm returns false, but the tag
enumeration is closed with exactly two members, so it is unreachable and
has no counterpart here. Reading the level from a union that holds the
other variant aborts in C++ and never happens in the checker (the queue is
built by `addLevelParam` / `addMuteParam` with matching tags); that arm is
modelled as false. -/
def isTagInRange (MIN_LEVEL_DB MAX_LEVEL_DB : Int) (tag : VolumeTag)
    (vol : Volume) (desc : Descriptor) : Bool :=
  match tag with
  | .levelDb =>
    match vol with
    | .levelDb level => isLevelInRange MIN_LEVEL_DB MAX_LEVEL_DB desc.capability level
    | .mute _ => false
  | .mute => true

/-- Embeds `kLevelValues`:
`{Volume::MIN_LEVEL_DB - 1, Volume::MIN_LEVEL_DB, -100,
Volume::MAX_LEVEL_DB, Volume::MAX_LEVEL_DB + 1}`. -/
def kLevelValues (MIN_LEVEL_DB MAX_LEVEL_DB : Int) : List Int :=
  [MIN_LEVEL_DB - 1, MIN_LEVEL_DB, -100, MAX_LEVEL_DB, MAX_LEVEL_DB + 1]

/-- Expected binder status computed by the checker for one queued value:
`valid ? EX_NONE : EX_ILLEGAL_ARGUMENT` where
`valid = isTagInRange(tag, vol, desc)`. -/
def expectedStatus (MIN_LEVEL_DB MAX_LEVEL_DB : Int) (tag : VolumeTag)
    (vol : Volume) (desc : Descriptor) : BinderStatus :=
  if isTagInRange MIN_LEVEL_DB MAX_LEVEL_DB tag vol desc then
    BinderStatus.EX_NONE
  else
    BinderStatus.EX_ILLEGAL_ARGUMENT

/-- Interface the checker drives on the plugin under test (`IEffect`),
modelled as a deterministic state machine over an arbitrary state type:
each binder call returns its status, its out-parameters and the plugin
state after the call. The checker makes no assumption about the plugin,
so theorems quantify over this record. -/
structure Plugin (σ : Type) where
  getDescriptor : σ → BinderStatus × Descriptor × σ
  setParameter : σ → Volume → BinderStatus × σ
  getParameter : σ → VolumeTag → BinderStatus × Volume × σ

/-- One completed loop iteration of `SetAndGetParameters`, recording the
queued (tag, value) pair, the descriptor fetched at this iteration, the
expected status computed from it, the actual status of the set call, and,
when a get was issued, the status and value it returned. -/
structure IterationRecord where
  tag : VolumeTag
  vol : Volume
  desc : Descriptor
  expected : BinderStatus
  setStatus : BinderStatus
  getResult : Option (VolumeTag × BinderStatus × Volume)
deriving DecidableEq, Repr

/-- Verdict of the gtest EXPECT checks for one iteration: the set status
must equal the expected one (`EXPECT_STATUS(expected, setParameter)`),
and when a get was issued its status must be `EX_NONE`
(`EXPECT_STATUS(EX_NONE, getParameter)`) and the returned value must be
structurally equal to the one just set (`EXPECT_EQ(expectParam,
getParam)`). -/
def IterationRecord.passed (r : IterationRecord) : Bool :=
  r.setStatus == r.expected &&
    (match r.getResult with
     | none => true
     | some (_, st, v) => st == BinderStatus.EX_NONE && v == r.vol)

/-- Result of one `SetAndGetParameters` run: the completed iteration
records in queue order; the abort status when the `ASSERT_STATUS` on a
descriptor fetch failed (the run halts there; a gtest ASSERT inside the
helper returns from it, abandoning the remaining queue); and the number
of `getDescriptor` calls issued, to state that the capability is fetched
fresh on every iteration. -/
structure RunResult (σ : Type) where
  records : List IterationRecord
  aborted : Option BinderStatus
  fetches : Nat
  finalState : σ

/-- Embeds `VolumeParamTest::SetAndGetParameters`. For each queued
(tag, vol) pair in order: fetch the descriptor
(`ASSERT_STATUS(EX_NONE, getDescriptor)` — a failure is fatal and halts
the whole helper); compute `valid = isTagInRange(tag, vol, desc)` and
`expected = valid ? EX_NONE : EX_ILLEGAL_ARGUMENT`; call
`setParameter(vol)` and check its status against `expected` (non-fatal
EXPECT); iff `expected == EX_NONE`, call `getParameter` for the same tag
and check status and round-trip equality (non-fatal EXPECTs); then
continue with the next queued pair regardless of the EXPECT outcomes. -/
def SetAndGetParameters {σ : Type} (MIN_LEVEL_DB MAX_LEVEL_DB : Int)
    (plugin : Plugin σ) : List (VolumeTag × Volume) → σ → RunResult σ
  | [], s => ⟨[], none, 0, s⟩
  | (tag, vol) :: rest, s =>
    let fetch := plugin.getDescriptor s
    let dSt := fetch.1
    let desc := fetch.2.1
    let s1 := fetch.2.2
    if dSt = BinderStatus.EX_NONE then
      let expected := expectedStatus MIN_LEVEL_DB MAX_LEVEL_DB tag vol desc
      let setRes := plugin.setParameter s1 vol
      if expected = BinderStatus.EX_NONE then
        let getRes := plugin.getParameter setRes.2 tag
        let record : IterationRecord :=
          ⟨tag, vol, desc, expected, setRes.1, some (tag, getRes.1, getRes.2.1)⟩
        let tail := SetAndGetParameters MIN_LEVEL_DB MAX_LEVEL_DB plugin rest getRes.2.2
        ⟨record :: tail.records, tail.aborted, tail.fetches + 1, tail.finalState⟩
      else
        let record : IterationRecord := ⟨tag, vol, desc, expected, setRes.1, none⟩
        let tail := SetAndGetParameters MIN_LEVEL_DB MAX_LEVEL_DB plugin rest setRes.2
        ⟨record :: tail.records, tail.aborted, tail.fetches + 1, tail.finalState⟩
    else
      ⟨[], some dSt, 1, s1⟩

/-- State of the spec-modelled reference plugin: the last successfully
set value of each parameter family and the (immutable) reported
capability. -/
structure PluginState where
  levelDb : Int
  mute : Bool
  cap : VolumeCapability
deriving DecidableEq, Repr

/-- Modelled from the spec: the plugin under test (the effect
implementation behind `IEffect`) is not among the extracted sources; this
reference plugin follows the spec's contract for the external
collaborator — `getCapability` (here embedded in the descriptor fetch)
fails only via transport error, so it always succeeds; `setParameter`
accepts exactly the in-range values, storing an accepted value in the
family's slot and returning success, and rejects an out-of-range value
with the illegal-argument signal leaving the stored state untouched;
`getParameter` returns the last successfully set value for the requested
family. -/
def modelPlugin (MIN_LEVEL_DB MAX_LEVEL_DB : Int) : Plugin PluginState where
  getDescriptor s := (BinderStatus.EX_NONE, ⟨s.cap⟩, s)
  setParameter s vol :=
    match vol with
    | .levelDb l =>
      if isLevelInRange MIN_LEVEL_DB MAX_LEVEL_DB s.cap l then
        (BinderStatus.EX_NONE, { s with levelDb := l })
      else
        (BinderStatus.EX_ILLEGAL_ARGUMENT, s)
    | .mute m => (BinderStatus.EX_NONE, { s with mute := m })
  getParameter s tag :=
    (BinderStatus.EX_NONE,
     (match tag with
      | .levelDb => Volume.levelDb s.levelDb
      | .mute => Volume.mute s.mute),
     s)

/-- Concrete misbehaving collaborator: descriptor fetches always succeed
(reporting `maxLevel = 0`), every set call fails with a transport-level
binder error (a status outside the success/illegal-argument vocabulary),
and get calls return a fixed value. Used to exhibit how the checker
treats transport failures of the set call. -/
def transportFailingPlugin : Plugin Unit where
  getDescriptor _ := (BinderStatus.EX_NONE, ⟨⟨0⟩⟩, ())
  setParameter _ _ := (BinderStatus.otherError 1, ())
  getParameter _ _ := (BinderStatus.EX_NONE, Volume.mute false, ())

/-- Concrete misbehaving collaborator whose descriptor fetch always fails
with a transport-level binder error. Used to exhibit the fatal abort on a
failed capability fetch. -/
def fetchFailingPlugin : Plugin Unit where
  getDescriptor _ := (BinderStatus.otherError 2, ⟨⟨0⟩⟩, ())
  setParameter _ _ := (BinderStatus.EX_NONE, ())
  getParameter _ _ := (BinderStatus.EX_NONE, Volume.mute false, ())

/-- Concrete reference-plugin state used in witness instantiations:
level at the minimum, unmuted, capability maximum 0. -/
def sampleState : PluginState := ⟨-9600, false, ⟨0⟩⟩

/-- Iteration record produced by running the checker on the single queued
pair (mute, Mute(true)) against the reference plugin from `sampleState`;
used in witness instantiations. -/
def sampleRecord : IterationRecord :=
  ⟨VolumeTag.mute, Volume.mute true, ⟨⟨0⟩⟩, BinderStatus.EX_NONE,
   BinderStatus.EX_NONE, some (VolumeTag.mute, BinderStatus.EX_NONE, Volume.mute true)⟩

/-- Unfolding lemma: the empty queue produces an empty, non-aborted run. -/
theorem SetAndGetParameters_nil {σ : Type} (MIN_LEVEL_DB MAX_LEVEL_DB : Int)
    (plugin : Plugin σ) (s : σ) :
    SetAndGetParameters MIN_LEVEL_DB MAX_LEVEL_DB plugin [] s = ⟨[], none, 0, s⟩ := rfl

/-- Unfolding lemma: when the descriptor fetch at the head of the queue
fails, the run halts at once with that status, recording nothing and
touching none of the remaining queued values. -/
theorem SetAndGetParameters_cons_fetchFail {σ : Type} (MIN_LEVEL_DB MAX_LEVEL_DB : Int)
    (plugin : Plugin σ) (tag : VolumeTag) (vol : Volume)
    (rest : List (VolumeTag × Volume)) (s : σ)
    (h : (plugin.getDescriptor s).1 ≠ BinderStatus.EX_NONE) :
    SetAndGetParameters MIN_LEVEL_DB MAX_LEVEL_DB plugin ((tag, vol) :: rest) s =
      ⟨[], some (plugin.getDescriptor s).1, 1, (plugin.getDescriptor s).2.2⟩ := by
  simp only [SetAndGetParameters]
  rw [if_neg h]

/-- Membership helper: every completed iteration record carries the
expected status computed by `expectedStatus` from its own queued pair and
its own freshly fetched descriptor; a get was issued iff that expected
status is `EX_NONE`; and any issued get targeted the same tag as the
queued pair. -/
theorem SetAndGetParameters_mem {σ : Type} (MIN_LEVEL_DB MAX_LEVEL_DB : Int)
    (plugin : Plugin σ) :
    ∀ (tags : List (VolumeTag × Volume)) (s : σ) (r : IterationRecord),
      r ∈ (SetAndGetParameters MIN_LEVEL_DB MAX_LEVEL_DB plugin tags s).records →
      r.expected = expectedStatus MIN_LEVEL_DB MAX_LEVEL_DB r.tag r.vol r.desc ∧
      (r.getResult.isSome = true ↔ r.expected = BinderStatus.EX_NONE) ∧
      (∀ t st v, r.getResult = some (t, st, v) → t = r.tag) := by
  intro tags
  induction tags with
  | nil =>
    intro s r hr
    simp [SetAndGetParameters] at hr
  | cons p rest ih =>
    intro s r hr
    obtain ⟨tag, vol⟩ := p
    simp only [SetAndGetParameters] at hr
    by_cases hd : (plugin.getDescriptor s).1 = BinderStatus.EX_NONE
    · rw [if_pos hd] at hr
      by_cases he :
          expectedStatus MIN_LEVEL_DB MAX_LEVEL_DB tag vol (plugin.getDescriptor s).2.1 =
            BinderStatus.EX_NONE
      · rw [if_pos he] at hr
        simp only [List.mem_cons] at hr
        rcases hr with rfl | hr
        · refine ⟨rfl, ?_, ?_⟩
          · simpa using he
          · intro t st v hget
            simp only [Option.some.injEq, Prod.mk.injEq] at hget
            exact hget.1.symm
        · exact ih _ r hr
      · rw [if_neg he] at hr
        simp only [List.mem_cons] at hr
        rcases hr with rfl | hr
        · refine ⟨rfl, ?_, ?_⟩
          · refine ⟨fun h => by simp at h, fun h => absurd h he⟩
          · intro t st v hget
            simp at hget
        · exact ih _ r hr
    · rw [if_neg hd] at hr
      simp at hr

/-- Completion helper: against a plugin whose descriptor fetch always
succeeds, the run never aborts, produces exactly one iteration record per
queued pair, in queue order, and performs exactly one descriptor fetch
per queued pair, whatever statuses and values the set and get calls
return. -/
theorem SetAndGetParameters_complete {σ : Type} (MIN_LEVEL_DB MAX_LEVEL_DB : Int)
    (plugin : Plugin σ)
    (hd : ∀ st : σ, (plugin.getDescriptor st).1 = BinderStatus.EX_NONE) :
    ∀ (tags : List (VolumeTag × Volume)) (s : σ),
      (SetAndGetParameters MIN_LEVEL_DB MAX_LEVEL_DB plugin tags s).aborted = none ∧
      (SetAndGetParameters MIN_LEVEL_DB MAX_LEVEL_DB plugin tags s).records.map
          (fun r => (r.tag, r.vol)) = tags ∧
      (SetAndGetParameters MIN_LEVEL_DB MAX_LEVEL_DB plugin tags s).fetches = tags.length := by
  intro tags
  induction tags with
  | nil =>
    intro s
    simp [SetAndGetParameters]
  | cons p rest ih =>
    intro s
    obtain ⟨tag, vol⟩ := p
    simp only [SetAndGetParameters]
    rw [if_pos (hd s)]
    by_cases he :
        expectedStatus MIN_LEVEL_DB MAX_LEVEL_DB tag vol (plugin.getDescriptor s).2.1 =
          BinderStatus.EX_NONE
    · rw [if_pos he]
      obtain ⟨h1, h2, h3⟩ := ih
        (plugin.getParameter (plugin.setParameter (plugin.getDescriptor s).2.2 vol).2 tag).2.2
      simp [h1, h2, h3]
    · rw [if_neg he]
      obtain ⟨h1, h2, h3⟩ := ih (plugin.setParameter (plugin.getDescriptor s).2.2 vol).2
      simp [h1, h2, h3]

/-- Characterisation: the computed expected status is success exactly
when the range predicate holds. -/
theorem expectedStatus_eq_none_iff (MIN_LEVEL_DB MAX_LEVEL_DB : Int)
    (tag : VolumeTag) (vol : Volume) (desc : Descriptor) :
    expectedStatus MIN_LEVEL_DB MAX_LEVEL_DB tag vol desc = BinderStatus.EX_NONE ↔
      isTagInRange MIN_LEVEL_DB MAX_LEVEL_DB tag vol desc = true := by
  unfold expectedStatus
  split <;> simp_all

/-- Round-trip helper: against the spec-modelled plugin and a queue whose
tags match their values (as built by `addLevelParam` / `addMuteParam`),
every iteration whose expected status is success has a successful set and
a get that returned exactly the value just set, for the same tag. -/
theorem SetAndGetParameters_model_roundtrip (MIN_LEVEL_DB MAX_LEVEL_DB : Int) :
    ∀ (tags : List (VolumeTag × Volume)) (s : PluginState) (r : IterationRecord),
      (∀ p ∈ tags, p.1 = p.2.tagOf) →
      r ∈ (SetAndGetParameters MIN_LEVEL_DB MAX_LEVEL_DB
            (modelPlugin MIN_LEVEL_DB MAX_LEVEL_DB) tags s).records →
      (r.expected = BinderStatus.EX_NONE →
        r.setStatus = BinderStatus.EX_NONE ∧
        r.getResult = some (r.tag, BinderStatus.EX_NONE, r.vol)) := by
  intro tags
  induction tags with
  | nil =>
    intro s r _ hr
    simp [SetAndGetParameters] at hr
  | cons p rest ih =>
    intro s r htags hr
    obtain ⟨tag, vol⟩ := p
    have htag : tag = vol.tagOf := htags (tag, vol) (List.mem_cons_self _ _)
    have hrest : ∀ p ∈ rest, p.1 = p.2.tagOf :=
      fun p hp => htags p (List.mem_cons_of_mem _ hp)
    simp only [SetAndGetParameters, modelPlugin] at hr
    rw [if_pos trivial] at hr
    by_cases he :
        expectedStatus MIN_LEVEL_DB MAX_LEVEL_DB tag vol ⟨s.cap⟩ = BinderStatus.EX_NONE
    · rw [if_pos he] at hr
      simp only [List.mem_cons] at hr
      rcases hr with rfl | hr
      · intro _
        cases vol with
        | levelDb l =>
          have hlev : isLevelInRange MIN_LEVEL_DB MAX_LEVEL_DB s.cap l = true := by
            have := (expectedStatus_eq_none_iff MIN_LEVEL_DB MAX_LEVEL_DB tag
              (Volume.levelDb l) ⟨s.cap⟩).mp he
            rw [htag] at this
            simpa [isTagInRange, Volume.tagOf] using this
          subst htag
          simp [Volume.tagOf, hlev]
        | mute m =>
          subst htag
          simp [Volume.tagOf]
      · exact ih _ r hrest hr
    · rw [if_neg he] at hr
      simp only [List.mem_cons] at hr
      rcases hr with rfl | hr
      · intro hcontra
        exact absurd hcontra he
      · exact ih _ r hrest hr

/-- C1: for every integer level L and every capability cap, the range
predicate for a Level value returns true if and only if
MIN_LEVEL_DB <= L, L <= MAX_LEVEL_DB, and L <= cap.maxLevel. -/
theorem claim_C1_level_range_iff (MIN_LEVEL_DB MAX_LEVEL_DB : Int)
    (cap : VolumeCapability) (L : Int) :
    isLevelInRange MIN_LEVEL_DB MAX_LEVEL_DB cap L = true ↔
      MIN_LEVEL_DB ≤ L ∧ L ≤ MAX_LEVEL_DB ∧ L ≤ cap.maxLevel := by
  simp [isLevelInRange, and_assoc]

/-- C4: for every boolean M and every reported descriptor, the range
predicate for a Mute value returns true — Mute values are never expected
to be rejected regardless of the capability contents. -/
theorem claim_C4_mute_always_in_range (MIN_LEVEL_DB MAX_LEVEL_DB : Int)
    (M : Bool) (desc : Descriptor) :
    isTagInRange MIN_LEVEL_DB MAX_LEVEL_DB VolumeTag.mute (Volume.mute M) desc = true := rfl

/-- C10: the level-range predicate is monotone in the capability maximum
(enlarging maxLevel never shrinks the accepted set), and for any
capability whose maximum is at least MAX_LEVEL_DB acceptance is decided
by the global band alone — a capability wider than the band never
enlarges the accepted set. -/
theorem claim_C10_level_range_monotone (MIN_LEVEL_DB MAX_LEVEL_DB L : Int)
    (cap1 cap2 cap : VolumeCapability) :
    (cap1.maxLevel ≤ cap2.maxLevel →
      isLevelInRange MIN_LEVEL_DB MAX_LEVEL_DB cap1 L = true →
      isLevelInRange MIN_LEVEL_DB MAX_LEVEL_DB cap2 L = true) ∧
    (MAX_LEVEL_DB ≤ cap.maxLevel →
      (isLevelInRange MIN_LEVEL_DB MAX_LEVEL_DB cap L = true ↔
        MIN_LEVEL_DB ≤ L ∧ L ≤ MAX_LEVEL_DB)) := by
  refine ⟨fun hm h1 => ?_, fun hc => ?_⟩
  · simp only [isLevelInRange, Bool.and_eq_true, decide_eq_true_eq] at h1 ⊢
    omega
  · simp only [isLevelInRange, Bool.and_eq_true, decide_eq_true_eq]
    omega

/-- Witness for C10 at the actual protocol constants (-9600, 0): a level
accepted under a narrower capability stays accepted under a wider one,
and with a capability maximum above the band the predicate reduces to the
band test. -/
theorem claim_C10_witness :
    isLevelInRange (-9600) 0 ⟨0⟩ (-20) = true ∧
      (isLevelInRange (-9600) 0 ⟨5⟩ (-20) = true ↔
        -9600 ≤ (-20 : Int) ∧ (-20 : Int) ≤ 0) :=
  ⟨(claim_C10_level_range_monotone (-9600) 0 (-20) ⟨-10⟩ ⟨0⟩ ⟨5⟩).1 (by decide) (by decide),
   (claim_C10_level_range_monotone (-9600) 0 (-20) ⟨-10⟩ ⟨0⟩ ⟨5⟩).2 (by decide)⟩

/-- C8: the candidate level vector is exactly MIN_LEVEL_DB - 1,
MIN_LEVEL_DB, the interior value -100, MAX_LEVEL_DB and
MAX_LEVEL_DB + 1; when -100 lies strictly inside the band and the
capability does not restrict below the band maximum, the two edges are
accepted inclusively and the two values just outside the band are
rejected. -/
theorem claim_C8_kLevelValues (MIN_LEVEL_DB MAX_LEVEL_DB : Int) :
    kLevelValues MIN_LEVEL_DB MAX_LEVEL_DB =
      [MIN_LEVEL_DB - 1, MIN_LEVEL_DB, -100, MAX_LEVEL_DB, MAX_LEVEL_DB + 1] ∧
    (MIN_LEVEL_DB < -100 → -100 < MAX_LEVEL_DB → ∀ cap : VolumeCapability,
      MAX_LEVEL_DB ≤ cap.maxLevel →
      isLevelInRange MIN_LEVEL_DB MAX_LEVEL_DB cap (MIN_LEVEL_DB - 1) = false ∧
      isLevelInRange MIN_LEVEL_DB MAX_LEVEL_DB cap MIN_LEVEL_DB = true ∧
      isLevelInRange MIN_LEVEL_DB MAX_LEVEL_DB cap (-100) = true ∧
      isLevelInRange MIN_LEVEL_DB MAX_LEVEL_DB cap MAX_LEVEL_DB = true ∧
      isLevelInRange MIN_LEVEL_DB MAX_LEVEL_DB cap (MAX_LEVEL_DB + 1) = false) := by
  refine ⟨rfl, fun h1 h2 cap hc => ?_⟩
  refine ⟨?_, ?_, ?_, ?_, ?_⟩ <;>
    · simp only [isLevelInRange, Bool.and_eq_true, decide_eq_true_eq,
        Bool.and_eq_false_iff, decide_eq_false_iff_not]
      omega

/-- Witness for C8 at the actual protocol constants (-9600, 0) with a
capability maximum of 0. -/
theorem claim_C8_witness :
    kLevelValues (-9600) 0 = [-9601, -9600, -100, 0, 1] ∧
      isLevelInRange (-9600) 0 ⟨0⟩ (-9601) = false ∧
      isLevelInRange (-9600) 0 ⟨0⟩ (-9600) = true ∧
      isLevelInRange (-9600) 0 ⟨0⟩ (-100) = true ∧
      isLevelInRange (-9600) 0 ⟨0⟩ 0 = true ∧
      isLevelInRange (-9600) 0 ⟨0⟩ 1 = false :=
  ⟨(claim_C8_kLevelValues (-9600) 0).1,
   (claim_C8_kLevelValues (-9600) 0).2 (by decide) (by decide) ⟨0⟩ (by decide)⟩

/-- C3: for every completed iteration the checker computed the expected
set-result from the range predicate — success for an in-range value, the
illegal-argument signal for an out-of-range one — and the iteration
passes only if the plugin's set-result equals that expected status
exactly. -/
theorem claim_C3_expected_from_predicate (MIN_LEVEL_DB MAX_LEVEL_DB : Int)
    {σ : Type} (plugin : Plugin σ) (tags : List (VolumeTag × Volume)) (s : σ)
    (r : IterationRecord)
    (hr : r ∈ (SetAndGetParameters MIN_LEVEL_DB MAX_LEVEL_DB plugin tags s).records) :
    (isTagInRange MIN_LEVEL_DB MAX_LEVEL_DB r.tag r.vol r.desc = true →
      r.expected = BinderStatus.EX_NONE) ∧
    (isTagInRange MIN_LEVEL_DB MAX_LEVEL_DB r.tag r.vol r.desc = false →
      r.expected = BinderStatus.EX_ILLEGAL_ARGUMENT) ∧
    (r.passed = true → r.setStatus = r.expected) := by
  obtain ⟨hexp, -, -⟩ :=
    SetAndGetParameters_mem MIN_LEVEL_DB MAX_LEVEL_DB plugin tags s r hr
  refine ⟨fun h => ?_, fun h => ?_, fun hp => ?_⟩
  · rw [hexp, expectedStatus, if_pos h]
  · rw [hexp, expectedStatus, if_neg (by simp [h])]
  · unfold IterationRecord.passed at hp
    simp only [Bool.and_eq_true, beq_iff_eq] at hp
    exact hp.1

/-- Witness for C3: the single queued pair (mute, Mute(true)) evaluated
against the reference plugin. -/
theorem claim_C3_witness :
    (isTagInRange (-9600) 0 sampleRecord.tag sampleRecord.vol sampleRecord.desc = true →
      sampleRecord.expected = BinderStatus.EX_NONE) ∧
    (isTagInRange (-9600) 0 sampleRecord.tag sampleRecord.vol sampleRecord.desc = false →
      sampleRecord.expected = BinderStatus.EX_ILLEGAL_ARGUMENT) ∧
    (sampleRecord.passed = true → sampleRecord.setStatus = sampleRecord.expected) :=
  claim_C3_expected_from_predicate (-9600) 0 (modelPlugin (-9600) 0)
    [(VolumeTag.mute, Volume.mute true)] sampleState sampleRecord (by decide)

/-- C2: against the spec-modelled plugin, with a queue whose tags match
their values, a get is issued for a queued value if and only if its
expected outcome is success; any issued get targets the same parameter
family; and for a value whose expected outcome is success and whose set
succeeded, the get returned exactly the value just set. -/
theorem claim_C2_roundtrip (MIN_LEVEL_DB MAX_LEVEL_DB : Int)
    (tags : List (VolumeTag × Volume)) (s : PluginState) (r : IterationRecord)
    (htags : ∀ p ∈ tags, p.1 = p.2.tagOf)
    (hr : r ∈ (SetAndGetParameters MIN_LEVEL_DB MAX_LEVEL_DB
        (modelPlugin MIN_LEVEL_DB MAX_LEVEL_DB) tags s).records) :
    (r.getResult.isSome = true ↔ r.expected = BinderStatus.EX_NONE) ∧
    (∀ t st v, r.getResult = some (t, st, v) → t = r.tag) ∧
    (r.expected = BinderStatus.EX_NONE → r.setStatus = BinderStatus.EX_NONE →
      r.getResult = some (r.tag, BinderStatus.EX_NONE, r.vol)) := by
  obtain ⟨-, hiff, htagget⟩ :=
    SetAndGetParameters_mem MIN_LEVEL_DB MAX_LEVEL_DB
      (modelPlugin MIN_LEVEL_DB MAX_LEVEL_DB) tags s r hr
  have hrt :=
    SetAndGetParameters_model_roundtrip MIN_LEVEL_DB MAX_LEVEL_DB tags s r htags hr
  exact ⟨hiff, htagget, fun he _ => (hrt he).2⟩

/-- Witness for C2: the single queued pair (mute, Mute(true)) evaluated
against the reference plugin round-trips. -/
theorem claim_C2_witness :
    (sampleRecord.getResult.isSome = true ↔ sampleRecord.expected = BinderStatus.EX_NONE) ∧
    (∀ t st v, sampleRecord.getResult = some (t, st, v) → t = sampleRecord.tag) ∧
    (sampleRecord.expected = BinderStatus.EX_NONE →
      sampleRecord.setStatus = BinderStatus.EX_NONE →
      sampleRecord.getResult =
        some (sampleRecord.tag, BinderStatus.EX_NONE, sampleRecord.vol)) :=
  claim_C2_roundtrip (-9600) 0 [(VolumeTag.mute, Volume.mute true)] sampleState
    sampleRecord (by decide) (by decide)

/-- C5: an out-of-range set attempt on the spec-modelled plugin returns
the illegal-argument signal and leaves the plugin state — in particular
the previously stored value of every parameter family — unchanged. -/
theorem claim_C5_rejection_unchanged (MIN_LEVEL_DB MAX_LEVEL_DB : Int)
    (s : PluginState) (vol : Volume)
    (h : isTagInRange MIN_LEVEL_DB MAX_LEVEL_DB vol.tagOf vol ⟨s.cap⟩ = false) :
    (modelPlugin MIN_LEVEL_DB MAX_LEVEL_DB).setParameter s vol =
      (BinderStatus.EX_ILLEGAL_ARGUMENT, s) := by
  cases vol with
  | mute m => simp [isTagInRange, Volume.tagOf] at h
  | levelDb l =>
    simp only [isTagInRange, Volume.tagOf] at h
    simp [modelPlugin, h]

/-- Witness for C5: setting Level(1), out of range for the band
[-9600, 0], is rejected and the state is untouched. -/
theorem claim_C5_witness :
    (modelPlugin (-9600) 0).setParameter sampleState (Volume.levelDb 1) =
      (BinderStatus.EX_ILLEGAL_ARGUMENT, sampleState) :=
  claim_C5_rejection_unchanged (-9600) 0 sampleState (Volume.levelDb 1) (by decide)

/-- C6: when every descriptor fetch succeeds, the run never aborts and
produces exactly one pass/fail record per queued value, in queue order,
whatever the set and get calls return — a mismatched set-result or a
round-trip mismatch on one value never prevents evaluation of the
remaining queued values. -/
theorem claim_C6_no_short_circuit (MIN_LEVEL_DB MAX_LEVEL_DB : Int)
    {σ : Type} (plugin : Plugin σ)
    (hd : ∀ st : σ, (plugin.getDescriptor st).1 = BinderStatus.EX_NONE)
    (tags : List (VolumeTag × Volume)) (s : σ) :
    (SetAndGetParameters MIN_LEVEL_DB MAX_LEVEL_DB plugin tags s).aborted = none ∧
    (SetAndGetParameters MIN_LEVEL_DB MAX_LEVEL_DB plugin tags s).records.map
        (fun r => (r.tag, r.vol)) = tags := by
  obtain ⟨h1, h2, -⟩ :=
    SetAndGetParameters_complete MIN_LEVEL_DB MAX_LEVEL_DB plugin hd tags s
  exact ⟨h1, h2⟩

/-- Witness for C6: a plugin whose set call always fails still has both
queued values evaluated, in order. -/
theorem claim_C6_witness :
    (SetAndGetParameters (-9600) 0 transportFailingPlugin
        [(VolumeTag.mute, Volume.mute true), (VolumeTag.levelDb, Volume.levelDb (-100))]
        ()).aborted = none ∧
    (SetAndGetParameters (-9600) 0 transportFailingPlugin
        [(VolumeTag.mute, Volume.mute true), (VolumeTag.levelDb, Volume.levelDb (-100))]
        ()).records.map (fun r => (r.tag, r.vol)) =
      [(VolumeTag.mute, Volume.mute true), (VolumeTag.levelDb, Volume.levelDb (-100))] :=
  claim_C6_no_short_circuit (-9600) 0 transportFailingPlugin (fun _ => rfl)
    [(VolumeTag.mute, Volume.mute true), (VolumeTag.levelDb, Volume.levelDb (-100))] ()

/-- C7 counterexample: a transport-level failure of the set call (binder
code outside the success/illegal-argument vocabulary) does not halt
evaluation — with a plugin whose every set call fails with such a code,
both queued values are still evaluated and the run does not abort,
contradicting the claim that any transport-level failure halts further
evaluation of the remaining queued values. -/
theorem claim_C7_counterexample :
    (SetAndGetParameters (-9600) 0 transportFailingPlugin
        [(VolumeTag.mute, Volume.mute true), (VolumeTag.mute, Volume.mute false)]
        ()).records.map (fun r => r.setStatus) =
      [BinderStatus.otherError 1, BinderStatus.otherError 1] ∧
    (SetAndGetParameters (-9600) 0 transportFailingPlugin
        [(VolumeTag.mute, Volume.mute true), (VolumeTag.mute, Volume.mute false)]
        ()).aborted = none ∧
    (SetAndGetParameters (-9600) 0 transportFailingPlugin
        [(VolumeTag.mute, Volume.mute true), (VolumeTag.mute, Volume.mute false)]
        ()).records.length = 2 := by
  decide

/-- C7 (amended): a failed capability fetch is fatal for the current run —
it halts evaluation at once, records nothing for the current or remaining
queued values, and surfaces the failing status — while a transport-level
failure of a set or get call is recorded in that value's check outcome
but does not halt evaluation of the remaining queued values. -/
theorem claim_C7_fetch_failure_fatal (MIN_LEVEL_DB MAX_LEVEL_DB : Int)
    {σ : Type} (plugin : Plugin σ) :
    (∀ (tag : VolumeTag) (vol : Volume) (rest : List (VolumeTag × Volume)) (s : σ),
      (plugin.getDescriptor s).1 ≠ BinderStatus.EX_NONE →
      SetAndGetParameters MIN_LEVEL_DB MAX_LEVEL_DB plugin ((tag, vol) :: rest) s =
        ⟨[], some (plugin.getDescriptor s).1, 1, (plugin.getDescriptor s).2.2⟩) ∧
    ((∀ st : σ, (plugin.getDescriptor st).1 = BinderStatus.EX_NONE) →
      ∀ (tags : List (VolumeTag × Volume)) (s : σ),
        (SetAndGetParameters MIN_LEVEL_DB MAX_LEVEL_DB plugin tags s).aborted = none ∧
        (SetAndGetParameters MIN_LEVEL_DB MAX_LEVEL_DB plugin tags s).records.map
            (fun r => (r.tag, r.vol)) = tags) := by
  constructor
  · intro tag vol rest s h
    exact SetAndGetParameters_cons_fetchFail MIN_LEVEL_DB MAX_LEVEL_DB plugin
      tag vol rest s h
  · intro hd tags s
    obtain ⟨h1, h2, -⟩ :=
      SetAndGetParameters_complete MIN_LEVEL_DB MAX_LEVEL_DB plugin hd tags s
    exact ⟨h1, h2⟩

/-- Witness for the amended C7: a plugin whose descriptor fetch fails
aborts the run immediately with the failing status, leaving the queued
values unevaluated. -/
theorem claim_C7_witness :
    SetAndGetParameters (-9600) 0 fetchFailingPlugin
        [(VolumeTag.mute, Volume.mute true), (VolumeTag.mute, Volume.mute false)] () =
      ⟨[], some (BinderStatus.otherError 2), 1, ()⟩ :=
  (claim_C7_fetch_failure_fatal (-9600) 0 fetchFailingPlugin).1
    VolumeTag.mute (Volume.mute true) [(VolumeTag.mute, Volume.mute false)] ()
    (by decide)

/-- C9: the expected outcome is a pure function of the queued (tag,
value) pair and the descriptor fetched for it — any two iteration
records, from any two runs against any two plugins, that agree on tag,
value and descriptor carry the same expected status — and a run whose
descriptor fetches all succeed performs exactly one fresh fetch per
queued value. -/
theorem claim_C9_expected_pure (MIN_LEVEL_DB MAX_LEVEL_DB : Int)
    {σ1 σ2 : Type} (p1 : Plugin σ1) (p2 : Plugin σ2)
    (tags1 tags2 : List (VolumeTag × Volume)) (s1 : σ1) (s2 : σ2)
    (r1 r2 : IterationRecord)
    (h1 : r1 ∈ (SetAndGetParameters MIN_LEVEL_DB MAX_LEVEL_DB p1 tags1 s1).records)
    (h2 : r2 ∈ (SetAndGetParameters MIN_LEVEL_DB MAX_LEVEL_DB p2 tags2 s2).records) :
    r1.expected = expectedStatus MIN_LEVEL_DB MAX_LEVEL_DB r1.tag r1.vol r1.desc ∧
    (r1.tag = r2.tag → r1.vol = r2.vol → r1.desc = r2.desc →
      r1.expected = r2.expected) ∧
    ((∀ st : σ1, (p1.getDescriptor st).1 = BinderStatus.EX_NONE) →
      (SetAndGetParameters MIN_LEVEL_DB MAX_LEVEL_DB p1 tags1 s1).fetches =
        tags1.length) := by
  obtain ⟨e1, -, -⟩ := SetAndGetParameters_mem MIN_LEVEL_DB MAX_LEVEL_DB p1 tags1 s1 r1 h1
  obtain ⟨e2, -, -⟩ := SetAndGetParameters_mem MIN_LEVEL_DB MAX_LEVEL_DB p2 tags2 s2 r2 h2
  refine ⟨e1, fun ht hv hd => ?_, fun hd =>
    (SetAndGetParameters_complete MIN_LEVEL_DB MAX_LEVEL_DB p1 hd tags1 s1).2.2⟩
  rw [e1, e2, ht, hv, hd]

/-- Witness for C9: two runs of the same single-value queue against the
reference plugin yield the same expected status for the shared record,
and the run fetches the descriptor once per queued value. -/
theorem claim_C9_witness :
    sampleRecord.expected =
      expectedStatus (-9600) 0 sampleRecord.tag sampleRecord.vol sampleRecord.desc ∧
    (SetAndGetParameters (-9600) 0 (modelPlugin (-9600) 0)
        [(VolumeTag.mute, Volume.mute true)] sampleState).fetches = 1 :=
  ⟨(claim_C9_expected_pure (-9600) 0 (modelPlugin (-9600) 0) (modelPlugin (-9600) 0)
      [(VolumeTag.mute, Volume.mute true)] [(VolumeTag.mute, Volume.mute true)]
      sampleState sampleState sampleRecord sampleRecord (by decide) (by decide)).1,
   (claim_C9_expected_pure (-9600) 0 (modelPlugin (-9600) 0) (modelPlugin (-9600) 0)
      [(VolumeTag.mute, Volume.mute true)] [(VolumeTag.mute, Volume.mute true)]
      sampleState sampleState sampleRecord sampleRecord (by decide) (by decide)).2.2
      (fun _ => rfl)⟩
